import Mathlib

/-!
Verification of the authentication core of the `just-to-do` backend
(`internal/pkg/auth`, `internal/domain/user`, `internal/interfaces/http/middleware`,
`internal/infrastructure/config`).

The Go code is shallowly embedded: pure functions become Lean functions, the
fallible Go `(T, error)` results become `Except`, and the request-scoped
`context.Context` becomes an explicit association list.  Byte strings that the
credential core manipulates are modelled as `List Char` (the code only ever
handles ASCII header/credential material, where Go bytes and characters agree).

The `golang.org/x/crypto/bcrypt` library is embedded symbolically: a bcrypt
hash string is a structured value carrying the cost, the salt and the key
stream actually consumed by the key schedule.  `GenerateFromPassword` refuses
passwords longer than 72 bytes (`ErrPasswordTooLong`).  The key schedule
(`expensiveBlowfishSetup` / `blowfish.ExpandKey`) appends a NUL byte to the
password and consumes the result cyclically, 72 bytes per expansion pass
always starting at offset zero, so the password's entire influence on the
hash is the 72-byte cyclic stream of `password ++ [NUL]`; the model stores
that stream and `CompareHashAndPassword` recomputes and compares it.  This
reproduces the library's deterministic collisions — a candidate longer than
72 bytes collides with its own 72-byte prefix, and `p` collides with
`p ++ "\x00" ++ p` — abstracting only the astronomically unlikely collisions
of the remaining Blowfish mixing.
-/

namespace TodoAuth

/-- The NUL byte that `expensiveBlowfishSetup` appends to the password before
key expansion (`ckey := append(key[:len(key):len(key)], 0)`). -/
def nulChar : Char := Char.ofNat 0

/-- Model of a Go string flowing through the credential core: either ordinary
text (a list of byte characters) or a bcrypt-formatted hash string
(`$2a$cost$saltchecksum`), which `bcrypt.CompareHashAndPassword` alone can
decode.  `key` records the 72-byte key stream the hash was derived from. -/
inductive GoStr where
  | txt (chars : List Char)
  | bhash (cost salt : Nat) (key : List Char)
deriving DecidableEq, Repr

/-- The byte content of the modelled string.  A `.txt` string is its
characters.  A bcrypt hash string is really a 60-byte `$2a$…` base64-packed
encoding; no claim ever places a hash string in password position, so its
content is a fixed 60-byte placeholder (only its length matters anywhere). -/
def GoStr.bytes : GoStr → List Char
  | .txt cs => cs
  | .bhash _ _ _ => "$2a$".toList ++ List.replicate 56 (Char.ofNat 42)

/-- Byte length of the modelled string (`len` in Go); an encoded bcrypt hash
string is always 60 bytes long. -/
def GoStr.lenB (g : GoStr) : Nat := g.bytes.length

/-- `bcrypt.DefaultCost` from `golang.org/x/crypto/bcrypt`. -/
def bcryptDefaultCost : Nat := 10

/-- The key stream the bcrypt key schedule derives from a password: the
NUL-extended password consumed cyclically, 72 bytes per expansion pass,
always starting at offset zero (`blowfish.ExpandKey` reads 18 32-bit words,
wrapping `j` modulo the key length).  Every expansion pass reads the same 72
bytes, so this stream is the password's entire contribution to the hash. -/
def bcryptKeySchedule (password : List Char) : List Char :=
  ((List.replicate 72 (password ++ [nulChar])).flatten).take 72

/-- `bcrypt.GenerateFromPassword(password, cost)`.  The salt that the library
draws from the entropy source is made an explicit argument.  Passwords longer
than 72 bytes are refused with `ErrPasswordTooLong`; otherwise the structured
hash value records cost, salt and the consumed key stream. -/
def bcryptGenerateFromPassword (password : GoStr) (cost salt : Nat) :
    Except String GoStr :=
  if 72 < password.lenB then
    .error "bcrypt: password length exceeds 72 bytes"
  else
    .ok (.bhash cost salt (bcryptKeySchedule password.bytes))

/-- `bcrypt.CompareHashAndPassword(hashedPassword, password)`, returned as the
Boolean `err == nil`.  A first argument that is not a well-formed bcrypt hash
string fails to decode (`newFromHash` errors), so the comparison reports a
mismatch; otherwise the hash is recomputed from the candidate password's key
stream with the stored cost and salt and compared in constant time. -/
def bcryptCompareHashAndPassword (hashedPassword password : GoStr) : Bool :=
  match hashedPassword with
  | .txt _ => false
  | .bhash _ _ key => bcryptKeySchedule password.bytes == key

/-- `(h *Hasher) Hash(password string) (string, error)` from
`internal/pkg/auth/hasher.go`: bcrypt at `DefaultCost`, wrapping a library
failure. -/
def Hasher.Hash (password : GoStr) (salt : Nat) : Except String GoStr :=
  match bcryptGenerateFromPassword password bcryptDefaultCost salt with
  | .error e => .error ("failed to hash password: " ++ e)
  | .ok h => .ok h

/-- `(h *Hasher) Verify(password, hash string) bool` from
`internal/pkg/auth/hasher.go`: the first parameter is the plaintext, the
second the stored hash, and the body runs
`bcrypt.CompareHashAndPassword([]byte(hash), []byte(password)) == nil`. -/
def Hasher.Verify (password hash : GoStr) : Bool :=
  bcryptCompareHashAndPassword hash password

/-! ### Domain errors (`internal/pkg/domainerr`, `internal/domain/user/errors.go`) -/

/-- `domainerr.ErrorType` is a Go string; its constants are below. -/
abbrev ErrorType := String

/-- `domainerr.ValidationError`. -/
def validationError : ErrorType := "validation"

/-- `domainerr.NotFoundError`. -/
def notFoundError : ErrorType := "not_found"

/-- `domainerr.PermissionError`. -/
def permissionError : ErrorType := "permission"

/-- `domainerr.ConflictError`. -/
def conflictError : ErrorType := "conflict"

/-- `domainerr.AuthenticationError`. -/
def authenticationError : ErrorType := "authentication"

/-- `domainerr.InternalError`. -/
def internalError : ErrorType := "internal_error"

/-- `domainerr.BusinessError` (the wrapped `InternalError error` field is `nil`
for every constant in `errors.go`; it is modelled as an optional message). -/
structure BusinessError where
  code : String
  type : ErrorType
  message : String
  internalErr : Option String := none
deriving DecidableEq, Repr

/-- `user.ErrInvalidCredentials` from `internal/domain/user/errors.go`. -/
def errInvalidCredentials : BusinessError :=
  { code := "INVALID_CREDENTIALS", type := authenticationError
    message := "invalid credentials" }

/-- `user.ErrAccountInactive` from `internal/domain/user/errors.go`. -/
def errAccountInactive : BusinessError :=
  { code := "ACCOUNT_INACTIVE", type := permissionError
    message := "account is inactive" }

/-- `user.ErrAccountBanned` from `internal/domain/user/errors.go`. -/
def errAccountBanned : BusinessError :=
  { code := "ACCOUNT_BANNED", type := permissionError
    message := "account has been banned" }

/-! ### User entity and the domain service (`internal/domain/user`) -/

/-- `user.UserStatusActive`; `UserStatus` is a Go string. -/
def userStatusActive : String := "active"

/-- `user.UserStatusInactive`. -/
def userStatusInactive : String := "inactive"

/-- `user.UserStatusBanned`. -/
def userStatusBanned : String := "banned"

/-- The fields of the `user` entity (`entity.go`) that `AuthenticateUser`
reads through `GetPasswordHash`/`GetStatus`. -/
structure UserRec where
  id : Int
  username : String
  email : String
  passwordHash : GoStr
  status : String
deriving DecidableEq, Repr

/-- `(s *Service) AuthenticateUser(ctx, email, password)` from
`internal/domain/user/service.go`, with the repository lookup and the injected
`Hasher.Verify` method as explicit function arguments.  `findByEmail` models
`s.repo.FindByEmail`: an infrastructure error, or `nil` (no user), or the
entity.  The service invokes the hasher as
`s.hash.Verify(user.GetPasswordHash(), password.String())`, i.e. with the
stored hash as the first argument. -/
def Service.AuthenticateUser
    (findByEmail : String → Except String (Option UserRec))
    (verify : GoStr → GoStr → Bool)
    (email : String) (password : GoStr) : Except BusinessError UserRec :=
  match findByEmail email with
  | .error _ => .error errInvalidCredentials
  | .ok none => .error errInvalidCredentials
  | .ok (some u) =>
    if u.status = userStatusInactive then .error errAccountInactive
    else if u.status = userStatusBanned then .error errAccountBanned
    else if verify u.passwordHash password then .ok u
    else .error errInvalidCredentials

/-- The hasher method the service actually dispatches to in the wiring of
`interfaces/http/handler` (`appauth.NewHasher()` passed to
`appuser.NewService`): the service supplies `(storedHash, plaintext)`, and the
concrete `pkg/auth` Hasher binds its `password` parameter to the stored hash
and its `hash` parameter to the plaintext. -/
def wiredVerify (hash value : GoStr) : Bool :=
  Hasher.Verify hash value

/-! ### Token codec (`internal/pkg/auth/token.go`, `github.com/golang-jwt/jwt/v5`)

Timestamps are Unix seconds (`jwt.NumericDate` serialises with
`TimePrecision = time.Second`); the configured expiry duration is likewise held
in seconds.  A signed token is a structured value: header algorithm, claims
payload, and a symbolic MAC recording exactly the key, algorithm and payload it
was computed over (any mutation of header or payload therefore invalidates
it).  A Go token string that does not decode at all is `TokenStr.malformed`. -/

/-- The `alg` values a token header may declare. -/
inductive JwtAlg where
  | HS256
  | HS384
  | HS512
  | RS256
  | ES256
  | algNone
deriving DecidableEq, Repr

/-- Whether the header algorithm is `*jwt.SigningMethodHMAC` (the type
assertion performed inside the `ParseToken` keyfunc). -/
def JwtAlg.isHMAC : JwtAlg → Bool
  | .HS256 | .HS384 | .HS512 => true
  | _ => false

/-- `auth.CustomClaims`: the embedded `jwt.RegisteredClaims` contribute the
`iat`/`exp` numeric dates; `user_id`, `username` and `role` are the custom
fields. -/
structure CustomClaims where
  userID : Int
  username : String
  role : String
  iat : Int
  exp : Int
deriving DecidableEq, Repr

/-- Symbolic MAC over header+payload: verification recomputes this value from
the candidate key and compares. -/
structure JwtSig where
  key : String
  alg : JwtAlg
  payload : CustomClaims
deriving DecidableEq, Repr

/-- A decodable three-part token: header (algorithm), payload (claims),
signature. -/
structure JwtTokenData where
  alg : JwtAlg
  claims : CustomClaims
  sig : JwtSig
deriving DecidableEq, Repr

/-- A Go token string: either structurally malformed or a decodable signed
token. -/
inductive TokenStr where
  | malformed (raw : String)
  | signed (t : JwtTokenData)
deriving DecidableEq, Repr

/-- The claims payload of a decodable token. -/
def TokenStr.claims? : TokenStr → Option CustomClaims
  | .malformed _ => none
  | .signed t => some t.claims

/-- The `jwtToken` struct: shared secret and configured expiry duration
(seconds). -/
structure JwtTool where
  secretKey : String
  expireDuration : Int
deriving DecidableEq, Repr

/-- `(j *jwtToken) GenerateToken(userID, username, role)`: claims with
`iat = now`, `exp = now.Add(j.expireDuration)`, signed `HS256` with
`j.secretKey`.  `SignedString` with an HMAC key cannot fail, so the result is
the token itself. -/
def JwtTool.GenerateToken (j : JwtTool) (now : Int) (userID : Int)
    (username role : String) : TokenStr :=
  let claims : CustomClaims :=
    { userID := userID, username := username, role := role
      iat := now, exp := now + j.expireDuration }
  .signed { alg := .HS256, claims := claims
            sig := { key := j.secretKey, alg := .HS256, payload := claims } }

/-- `(j *jwtToken) ParseToken(tokenString)`: `jwt.ParseWithClaims` decodes the
token, runs the keyfunc (which rejects any non-HMAC header algorithm), then
verifies the signature against `j.secretKey`, then validates the claims (the
token is expired unless the current time is strictly before `exp`).  On any of
those failures the wrapper returns `nil` claims and a non-nil error. -/
def JwtTool.ParseToken (j : JwtTool) (now : Int) (ts : TokenStr) :
    Except String CustomClaims :=
  match ts with
  | .malformed _ => .error "failed to parse token: token is malformed"
  | .signed t =>
    if !t.alg.isHMAC then
      .error "failed to parse token: unexpected signing method"
    else if t.sig = { key := j.secretKey, alg := t.alg, payload := t.claims } then
      if now < t.claims.exp then .ok t.claims
      else .error "failed to parse token: token has invalid claims: token is expired"
    else .error "failed to parse token: token signature is invalid"

/-- `(j *jwtToken) RefreshToken(tokenString)`: parse the old token (failing if
it does not parse), then generate a fresh token from its `UserID`, `Username`
and `Role` at the current time. -/
def JwtTool.RefreshToken (j : JwtTool) (now : Int) (ts : TokenStr) :
    Except String TokenStr :=
  match j.ParseToken now ts with
  | .error e => .error ("failed to parse token for refresh: " ++ e)
  | .ok claims => .ok (j.GenerateToken now claims.userID claims.username claims.role)

/-! ### JWT configuration (`internal/infrastructure/config/jwt_config.go`) -/

/-- Nanoseconds per minute (`time.Minute`); Go `time.Duration` is an `int64`
count of nanoseconds. -/
def nsPerMinute : Int := 60 * 1000000000

/-- Nanoseconds per hour (`time.Hour`). -/
def nsPerHour : Int := 60 * nsPerMinute

/-- `config.MinJWTSecretKeyLength`. -/
def minJWTSecretKeyLength : Nat := 32

/-- `config.MinJWTExpiration` (one minute). -/
def minJWTExpiration : Int := nsPerMinute

/-- `config.MaxJWTExpiration` (thirty days). -/
def maxJWTExpiration : Int := nsPerHour * 24 * 30

/-- The `jwtConfig` struct: signing secret and token lifetime (nanoseconds). -/
structure JwtConfig where
  secretKey : String
  expireDuration : Int
deriving DecidableEq, Repr

/-- The development fallback secret installed by `setJWTDefaults`. -/
def devDefaultSecret : String :=
  "development-secret-key-change-in-production-min-32-chars"

/-- `config.setJWTDefaults`: fill only the unset fields (empty secret, zero
duration) with the development defaults. -/
def setJWTDefaults (cfg : JwtConfig) : JwtConfig :=
  { secretKey := if cfg.secretKey = "" then devDefaultSecret else cfg.secretKey
    expireDuration :=
      if cfg.expireDuration = 0 then nsPerHour * 24 else cfg.expireDuration }

/-- `config.validateJWTConfig`: non-empty secret of at least 32 characters and
an expiry between one minute and thirty days inclusive. -/
def validateJWTConfig (cfg : JwtConfig) : Except String Unit :=
  if cfg.secretKey = "" then
    .error "jwt secret_key cannot be empty"
  else if cfg.secretKey.length < minJWTSecretKeyLength then
    .error "jwt secret_key must be at least 32 characters for security"
  else if cfg.expireDuration < minJWTExpiration then
    .error "jwt expire_duration must be at least 1m0s"
  else if maxJWTExpiration < cfg.expireDuration then
    .error "jwt expire_duration cannot exceed 720h0m0s"
  else .ok ()

/-- `config.loadJWTConfig`: read `JWT_SECRET_KEY` (default `""`) and
`JWT_EXPIRE_DURATION` (default `0`) from the environment — both passed here as
the already-resolved values — apply the defaults, then validate.  A validation
failure is returned as an error, which `GetJWTConfig` turns into a panic, so
the process never serves traffic with an invalid JWT configuration. -/
def loadJWTConfig (envSecret : String) (envDuration : Int) :
    Except String JwtConfig :=
  let cfg := setJWTDefaults { secretKey := envSecret, expireDuration := envDuration }
  match validateJWTConfig cfg with
  | .error e => .error ("invalid jwt config: " ++ e)
  | .ok _ => .ok cfg

/-! ### Authentication middleware (`internal/interfaces/http/middleware/auth.go`) -/

/-- A value stored in a request context (the middleware stores an `int64` user
id and `string` username/role). -/
inductive CtxVal where
  | int64 (i : Int)
  | str (s : String)
deriving DecidableEq, Repr

/-- A request `context.Context`, modelled as the chain of `WithValue` wrappers:
the most recently attached entry is first, and `Value` walks outside-in. -/
structure Ctx where
  entries : List (String × CtxVal)
deriving DecidableEq, Repr

/-- `ctx.Value(key)`. -/
def Ctx.value (ctx : Ctx) (key : String) : Option CtxVal :=
  (ctx.entries.find? (fun e => e.fst == key)).map (fun e => e.snd)

/-- `middleware.ContextKeyUserID`. -/
def contextKeyUserID : String := "user_id"

/-- `middleware.ContextKeyUsername`. -/
def contextKeyUsername : String := "username"

/-- `middleware.ContextKeyRole`. -/
def contextKeyRole : String := "role"

/-- `(m *AuthMiddleware) contextWithUser(ctx, claims)`: three nested
`context.WithValue` calls attaching user id, username and role. -/
def contextWithUser (ctx : Ctx) (claims : CustomClaims) : Ctx :=
  { entries :=
      (contextKeyRole, .str claims.role) ::
      (contextKeyUsername, .str claims.username) ::
      (contextKeyUserID, .int64 claims.userID) :: ctx.entries }

/-- The 7-byte `"Bearer "` marker tested by `strings.HasPrefix`. -/
def bearerMark : List Char := "Bearer ".toList

/-- `(m *AuthMiddleware) extractToken(r)`: read the `Authorization` header
(`Header.Get` yields `""` when the header is absent, modelled as the empty
byte list); an empty header is `ErrMissingToken`; a `Bearer `-prefixed header
yields the rest (`strings.TrimPrefix`) unless that rest is empty
(`ErrInvalidTokenFormat`); any other non-empty header is taken as a bare
token. -/
def extractToken (authHeader : List Char) : Except String (List Char) :=
  if authHeader = [] then .error "missing authorization token"
  else if bearerMark.isPrefixOf authHeader then
    let token := authHeader.drop 7
    if token = [] then .error "invalid authorization format"
    else .ok token
  else .ok authHeader

/-- What the middleware wrote to the response: either a rejection with an HTTP
status, or exactly one invocation of the wrapped handler with the given
request context. -/
inductive MwResponse where
  | rejected (status : Nat) (message : String)
  | nextCalled (ctxt : Ctx)
deriving DecidableEq, Repr

/-- Outcome of one `Authenticate` run, recording whether the Token Codec was
invoked. -/
structure MwOutcome where
  response : MwResponse
  parseTokenCalled : Bool
deriving DecidableEq, Repr

/-- Number of times the wrapped handler ran in this outcome. -/
def MwOutcome.handlerCalls (o : MwOutcome) : Nat :=
  match o.response with
  | .nextCalled _ => 1
  | .rejected _ _ => 0

/-- `(m *AuthMiddleware) Authenticate(next)` applied to one request:
extraction failure writes 401 without touching the Token Codec; a
`ParseToken` failure writes 401; on success the wrapped handler runs once with
the child context carrying the decoded identity.  `parseToken` abstracts the
injected `TokenTool.ParseToken`. -/
def authenticate (parseToken : List Char → Except String CustomClaims)
    (authHeader : List Char) (reqCtx : Ctx) : MwOutcome :=
  match extractToken authHeader with
  | .error _ =>
    { response := .rejected 401 "missing or invalid authorization token"
      parseTokenCalled := false }
  | .ok token =>
    match parseToken token with
    | .error _ =>
      { response := .rejected 401 "invalid or expired token"
        parseTokenCalled := true }
    | .ok claims =>
      { response := .nextCalled (contextWithUser reqCtx claims)
        parseTokenCalled := true }

/-- `(m *AuthMiddleware) hasRole(role, allowedRoles)`: linear scan for an
exactly equal entry. -/
def hasRoleIn (role : String) (allowedRoles : List String) : Bool :=
  allowedRoles.any (fun allowed => role == allowed)

/-- `(m *AuthMiddleware) RequireRole(allowedRoles...)` applied to one request:
no role in the context, or a non-string value, writes 403; a role outside the
allowed list writes 403; otherwise the wrapped handler runs with the original
request. -/
def requireRole (allowedRoles : List String) (reqCtx : Ctx) : MwResponse :=
  match reqCtx.value contextKeyRole with
  | none => .rejected 403 "authentication required"
  | some (.str role) =>
    if hasRoleIn role allowedRoles then .nextCalled reqCtx
    else .rejected 403 "insufficient permissions"
  | some (.int64 _) => .rejected 403 "invalid user role"

/-! ### Concrete test fixtures -/

/-- A well-formed plaintext password (9 ASCII bytes, mixed character
classes). -/
def demoPassword : GoStr := .txt "Passw0rd!".toList

/-- The bcrypt hash produced for `demoPassword` (salt drawn as `12345`). -/
def demoHash : GoStr :=
  .bhash bcryptDefaultCost 12345 (bcryptKeySchedule "Passw0rd!".toList)

/-- An active user record storing `demoHash`. -/
def demoUser : UserRec :=
  { id := 1, username := "alice", email := "alice@example.com"
    passwordHash := demoHash, status := "active" }

/-- A user store holding exactly `demoUser`. -/
def demoRepo (email : String) : Except String (Option UserRec) :=
  if email = "alice@example.com" then .ok (some demoUser) else .ok none

/-- A user store in which every lookup hits an infrastructure failure. -/
def failingRepo (_email : String) : Except String (Option UserRec) :=
  .error "driver: bad connection"

/-- A user store with no records at all. -/
def emptyRepo (_email : String) : Except String (Option UserRec) :=
  .ok none

/-- A valid 72-byte password (the bcrypt maximum). -/
def p72 : List Char := "Aa1".toList ++ List.replicate 69 'a'

/-- `p72` with one extra byte appended: a different string whose first 72
bytes coincide with `p72`. -/
def q73 : List Char := p72 ++ ['a']

/-- A token tool fixture: one-hour expiry. -/
def j0 : JwtTool := { secretKey := "k", expireDuration := 3600 }

/-- An empty request context. -/
def ctx0 : Ctx := { entries := [] }

/-- Fixture claims for the middleware witnesses. -/
def claims0 : CustomClaims :=
  { userID := 7, username := "alice", role := "admin", iat := 0, exp := 100 }

/-- A token codec stub accepting every token with `claims0`. -/
def parseAccept (_token : List Char) : Except String CustomClaims := .ok claims0

/-- A token codec stub rejecting every token. -/
def parseReject (_token : List Char) : Except String CustomClaims :=
  .error "failed to parse token: token signature is invalid"

/-- Claims of a long-lived token: validly signed with `j0`'s secret but with
`exp` far beyond `iat + j0.expireDuration` (issued under a different expiry
policy, or crafted by a holder of the secret). -/
def longClaims : CustomClaims :=
  { userID := 9, username := "bob", role := "user", iat := 0, exp := 10000 }

/-- The long-lived token itself: HMAC header and a valid signature over
`longClaims` under `j0`'s secret, so it parses successfully while valid. -/
def longToken : TokenStr :=
  .signed { alg := .HS256, claims := longClaims
            sig := { key := "k", alg := .HS256, payload := longClaims } }

deriving instance DecidableEq for Except

/-! ### Theorems -/

/-- Claim C1 (code bug): in the wiring actually used by the handlers, the
concrete `pkg/auth` Hasher receives the service's `(storedHash, plaintext)`
call through its `(password, hash)` signature, so
`bcrypt.CompareHashAndPassword` is handed the plaintext in the hash position.
A plaintext is not a well-formed bcrypt hash string, so verification fails for
every password — in particular `AuthenticateUser` returns
`ErrInvalidCredentials` for an active user presenting exactly the plaintext
whose hash is stored, contradicting the claim that it returns the user with no
error. -/
theorem authenticateUser_wired_hasher_rejects_correct_password :
    Hasher.Hash demoPassword 12345 = .ok demoHash ∧
    demoUser.status = userStatusActive ∧
    Service.AuthenticateUser demoRepo wiredVerify "alice@example.com" demoPassword =
      .error errInvalidCredentials ∧
    Service.AuthenticateUser demoRepo (fun h v => Hasher.Verify v h)
      "alice@example.com" demoPassword = .ok demoUser ∧
    (∀ (c s : Nat) (k : List Char) (pw : List Char),
      wiredVerify (.bhash c s k) (.txt pw) = false) := by
  refine ⟨by decide, by decide, by decide, by decide, ?_⟩
  intro c s k pw
  rfl

/-- Claim C2 counterexample: bcrypt's key schedule consumes the NUL-extended
password cyclically and reads exactly 72 bytes per pass, so distinct
candidates can verify against the same hash.  First pair: for the valid
72-byte password `p72`, the longer `q73 = p72 ++ "a"` has the same first 72
bytes and verifies.  Second pair: for `p = "a"`, the distinct 3-byte candidate
`"a\x00a"` yields the same cyclic stream `a\x00a\x00…` and verifies.  Both
refute `Verify(q, Hash(p)) = false` for *any* `q ≠ p`. -/
theorem hasher_verify_truncation_counterexample :
    0 < p72.length ∧ p72.length ≤ 72 ∧ GoStr.txt q73 ≠ GoStr.txt p72 ∧
    Hasher.Hash (.txt p72) 7 =
      .ok (.bhash bcryptDefaultCost 7 (bcryptKeySchedule p72)) ∧
    Hasher.Verify (.txt q73) (.bhash bcryptDefaultCost 7 (bcryptKeySchedule p72)) =
      true ∧
    ([Char.ofNat 97, nulChar, Char.ofNat 97] : List Char) ≠ [Char.ofNat 97] ∧
    ([Char.ofNat 97, nulChar, Char.ofNat 97] : List Char).length ≤ 72 ∧
    Hasher.Hash (.txt [Char.ofNat 97]) 9 =
      .ok (.bhash bcryptDefaultCost 9 (bcryptKeySchedule [Char.ofNat 97])) ∧
    Hasher.Verify (.txt [Char.ofNat 97, nulChar, Char.ofNat 97])
      (.bhash bcryptDefaultCost 9 (bcryptKeySchedule [Char.ofNat 97])) = true := by
  decide

/-- Every byte of a NUL-free password is kept by `takeWhile`. -/
theorem takeWhile_ne_nul_self (s : List Char) (hs : nulChar ∉ s) :
    s.takeWhile (fun c => c != nulChar) = s := by
  induction s with
  | nil => rfl
  | cons a t ih =>
    have ha : a ≠ nulChar := fun h => hs (h ▸ List.mem_cons_self a t)
    simp only [List.takeWhile_cons]
    rw [if_pos (by simpa using ha)]
    rw [ih (fun h => hs (List.mem_cons_of_mem a h))]

/-- `takeWhile` recovers a NUL-free block placed before the first NUL. -/
theorem takeWhile_ne_nul_append (s r : List Char) (hs : nulChar ∉ s) :
    (s ++ nulChar :: r).takeWhile (fun c => c != nulChar) = s := by
  induction s with
  | nil => simp [List.takeWhile_cons]
  | cons a t ih =>
    have ha : a ≠ nulChar := fun h => hs (h ▸ List.mem_cons_self a t)
    simp only [List.cons_append, List.takeWhile_cons]
    rw [if_pos (by simpa using ha)]
    rw [ih (fun h => hs (List.mem_cons_of_mem a h))]

/-- A NUL-free password of at most 72 bytes is recoverable from its bcrypt key
stream: the stream starts with the password, followed by the first NUL (or
ends exactly at byte 72 for a 72-byte password). -/
theorem bcryptKeySchedule_recover (s : List Char) (h72 : s.length ≤ 72)
    (hnul : nulChar ∉ s) :
    (bcryptKeySchedule s).takeWhile (fun c => c != nulChar) = s := by
  unfold bcryptKeySchedule
  have hrep : List.replicate 72 (s ++ [nulChar]) =
      (s ++ [nulChar]) :: List.replicate 71 (s ++ [nulChar]) := rfl
  rw [hrep, List.flatten_cons, List.append_assoc, List.take_append_eq_append_take,
    List.take_of_length_le h72]
  rcases Nat.lt_or_ge s.length 72 with hlt | hge
  · have hsub : 72 - s.length = (71 - s.length) + 1 := by omega
    rw [hsub]
    simp only [List.singleton_append, List.take_succ_cons]
    exact takeWhile_ne_nul_append s _ hnul
  · have hlen : s.length = 72 := Nat.le_antisymm h72 hge
    rw [hlen]
    simp only [Nat.sub_self, List.take_zero, List.append_nil]
    exact takeWhile_ne_nul_self s hnul

/-- The bcrypt key stream is injective on NUL-free passwords of at most 72
bytes. -/
theorem bcryptKeySchedule_inj (p q : List Char) (hp : p.length ≤ 72)
    (hq : q.length ≤ 72) (hpn : nulChar ∉ p) (hqn : nulChar ∉ q)
    (h : bcryptKeySchedule q = bcryptKeySchedule p) : q = p := by
  rw [← bcryptKeySchedule_recover q hq hqn, ← bcryptKeySchedule_recover p hp hpn, h]

/-- Claim C2 as amended: for a valid plaintext `p` (non-empty, at most 72
bytes, no NUL byte), `Verify(p, Hash(p))` succeeds, and `Verify(q, Hash(p))`
fails for every `q ≠ p` that is likewise NUL-free and at most 72 bytes —
the classes the counterexamples force out, since bcrypt's cyclic NUL-extended
key schedule identifies a password with its 72-byte prefix extensions and
with its NUL-joined repetitions. -/
theorem hasher_verify_amended (p q : List Char) (salt : Nat)
    (_hp0 : 0 < p.length) (hp : p.length ≤ 72) (hq : q.length ≤ 72)
    (hpn : nulChar ∉ p) (hqn : nulChar ∉ q) (hne : q ≠ p) :
    Hasher.Hash (.txt p) salt =
      .ok (.bhash bcryptDefaultCost salt (bcryptKeySchedule p)) ∧
    Hasher.Verify (.txt p) (.bhash bcryptDefaultCost salt (bcryptKeySchedule p)) =
      true ∧
    Hasher.Verify (.txt q) (.bhash bcryptDefaultCost salt (bcryptKeySchedule p)) =
      false := by
  refine ⟨?_, ?_, ?_⟩
  · simp [Hasher.Hash, bcryptGenerateFromPassword, GoStr.lenB, GoStr.bytes,
      Nat.not_lt.mpr hp]
  · simp [Hasher.Verify, bcryptCompareHashAndPassword, GoStr.bytes]
  · have hne' : bcryptKeySchedule q ≠ bcryptKeySchedule p :=
      fun h => hne (bcryptKeySchedule_inj p q hp hq hpn hqn h)
    simp [Hasher.Verify, bcryptCompareHashAndPassword, GoStr.bytes, hne']

/-- Witness for `hasher_verify_amended` at a concrete password pair. -/
theorem hasher_verify_amended_witness :
    Hasher.Hash (.txt "Passw0rd!".toList) 3 =
      .ok (.bhash bcryptDefaultCost 3 (bcryptKeySchedule "Passw0rd!".toList)) ∧
    Hasher.Verify (.txt "Passw0rd!".toList)
      (.bhash bcryptDefaultCost 3 (bcryptKeySchedule "Passw0rd!".toList)) = true ∧
    Hasher.Verify (.txt "Wrong1!".toList)
      (.bhash bcryptDefaultCost 3 (bcryptKeySchedule "Passw0rd!".toList)) = false :=
  hasher_verify_amended "Passw0rd!".toList "Wrong1!".toList 3
    (by decide) (by decide) (by decide) (by decide) (by decide) (by decide)

/-- Claim C3: every configuration the JWT loader hands out satisfies the
startup invariants — the secret is at least 32 characters and the expiry lies
between one minute and thirty days inclusive.  A violating environment makes
`loadJWTConfig` return an error, which `GetJWTConfig` escalates to a panic
before the server starts, so no runtime consumer ever sees an out-of-bounds
configuration. -/
theorem jwtConfig_validated_at_startup (envSecret : String) (envDuration : Int)
    (cfg : JwtConfig) (h : loadJWTConfig envSecret envDuration = .ok cfg) :
    minJWTSecretKeyLength ≤ cfg.secretKey.length ∧
    minJWTExpiration ≤ cfg.expireDuration ∧
    cfg.expireDuration ≤ maxJWTExpiration := by
  simp only [loadJWTConfig] at h
  cases hv : validateJWTConfig
      (setJWTDefaults { secretKey := envSecret, expireDuration := envDuration }) with
  | error e => rw [hv] at h; cases h
  | ok u =>
    rw [hv] at h
    cases h
    unfold validateJWTConfig at hv
    split_ifs at hv with h1 h2 h3 h4
    exact ⟨Nat.not_lt.mp h2, Int.not_lt.mp h3, Int.not_lt.mp h4⟩

/-- Witness for `jwtConfig_validated_at_startup`: the empty environment loads
the development defaults, which satisfy the bounds. -/
theorem jwtConfig_validated_at_startup_witness :
    minJWTSecretKeyLength ≤
      (JwtConfig.mk devDefaultSecret 86400000000000).secretKey.length ∧
    minJWTExpiration ≤
      (JwtConfig.mk devDefaultSecret 86400000000000).expireDuration ∧
    (JwtConfig.mk devDefaultSecret 86400000000000).expireDuration ≤
      maxJWTExpiration :=
  jwtConfig_validated_at_startup "" 0 _ (by decide)

/-- Claim C4: parsing a freshly generated token with the same tool (same
shared secret), at any time strictly before the configured expiry, returns
exactly the claims built from the generation inputs, with no error. -/
theorem parseToken_generateToken_roundtrip (j : JwtTool) (tGen now : Int)
    (userID : Int) (username role : String)
    (h : now < tGen + j.expireDuration) :
    j.ParseToken now (j.GenerateToken tGen userID username role) =
      .ok { userID := userID, username := username, role := role
            iat := tGen, exp := tGen + j.expireDuration } := by
  simp [JwtTool.ParseToken, JwtTool.GenerateToken, JwtAlg.isHMAC, h]

/-- Witness for `parseToken_generateToken_roundtrip` on the fixture tool. -/
theorem parseToken_generateToken_roundtrip_witness :
    j0.ParseToken 100 (j0.GenerateToken 50 7 "alice" "admin") =
      .ok { userID := 7, username := "alice", role := "admin"
            iat := 50, exp := 3650 } :=
  parseToken_generateToken_roundtrip j0 50 100 7 "alice" "admin" (by decide)

/-- Claim C5: `ParseToken` yields claims exactly when the token decodes, its
header algorithm is in the HMAC family, its signature verifies under the
shared secret, and the expiry has not passed; in every other case it returns
an error and — the result being `Except` — no claims value at all. -/
theorem parseToken_ok_iff (j : JwtTool) (now : Int) (ts : TokenStr)
    (c : CustomClaims) :
    j.ParseToken now ts = .ok c ↔
      ∃ t, ts = .signed t ∧ t.alg.isHMAC = true ∧
        t.sig = { key := j.secretKey, alg := t.alg, payload := t.claims } ∧
        now < t.claims.exp ∧ c = t.claims := by
  constructor
  · intro h
    cases ts with
    | malformed r => simp [JwtTool.ParseToken] at h
    | signed t =>
      simp only [JwtTool.ParseToken] at h
      split_ifs at h with h1 h2 h3
      exact ⟨t, rfl, by simpa using h1, h2, h3, (Except.ok.inj h).symm⟩
  · rintro ⟨t, rfl, halg, hsig, hexp, rfl⟩
    simp [JwtTool.ParseToken, halg, hsig, hexp]

/-- Claim C9 counterexample: two still-parseable tokens for which the
refreshed expiry is not strictly later than the old one.  A token generated
and refreshed within the same second (`iat = 50`, refresh at `50`) refreshes
to the very same token — equal expiry `3650`, not strictly later.  And the
validly signed long-lived token `longToken` (`exp = 10000`, still valid at
`100`) refreshes to expiry `3700` — strictly *earlier* than before. -/
theorem refreshToken_strictly_later_counterexample :
    j0.ParseToken 50 (j0.GenerateToken 50 7 "alice" "admin") =
      .ok { userID := 7, username := "alice", role := "admin"
            iat := 50, exp := 3650 } ∧
    j0.RefreshToken 50 (j0.GenerateToken 50 7 "alice" "admin") =
      .ok (j0.GenerateToken 50 7 "alice" "admin") ∧
    j0.ParseToken 100 longToken = .ok longClaims ∧
    longClaims.exp = 10000 ∧
    j0.RefreshToken 100 longToken = .ok (j0.GenerateToken 100 9 "bob" "user") ∧
    (j0.GenerateToken 100 9 "bob" "user").claims? =
      some { userID := 9, username := "bob", role := "user"
             iat := 100, exp := 3700 } := by
  decide

/-- Claim C9 as amended: refreshing any token that still parses successfully
returns the token regenerated at the refresh time — identical subject id,
username and role, with expiry `refreshTime + expireDuration`; that expiry is
strictly later than the old token's when the old token carries
`exp = iat + expireDuration` (as every token issued by this codec does) and
the refresh runs at a timestamp strictly after `iat` (the serialised
timestamps are whole seconds, so a same-second refresh reproduces the old
expiry).  Refreshing any token that fails `ParseToken` (expired, tampered,
malformed) fails. -/
theorem refreshToken_amended (j : JwtTool) (t1 : Int) (ts : TokenStr)
    (c : CustomClaims)
    (hok : j.ParseToken t1 ts = .ok c)
    (hexp : c.exp = c.iat + j.expireDuration)
    (hadv : c.iat < t1) :
    (j.RefreshToken t1 ts = .ok (j.GenerateToken t1 c.userID c.username c.role) ∧
      (j.GenerateToken t1 c.userID c.username c.role).claims? =
        some { userID := c.userID, username := c.username, role := c.role
               iat := t1, exp := t1 + j.expireDuration } ∧
      c.exp < t1 + j.expireDuration) ∧
    (∀ (ts' : TokenStr) (e : String), j.ParseToken t1 ts' = .error e →
      j.RefreshToken t1 ts' = .error ("failed to parse token for refresh: " ++ e)) := by
  constructor
  · refine ⟨?_, rfl, by omega⟩
    unfold JwtTool.RefreshToken
    rw [hok]
  · intro ts' e h
    unfold JwtTool.RefreshToken
    rw [h]

/-- Witness for `refreshToken_amended` on the fixture tool: a token issued at
`50` refreshed at `100` gains a strictly later expiry, and a malformed token
fails to refresh. -/
theorem refreshToken_amended_witness :
    j0.RefreshToken 100 (j0.GenerateToken 50 7 "alice" "admin") =
      .ok (j0.GenerateToken 100 7 "alice" "admin") ∧
    (3650 : Int) < 100 + j0.expireDuration ∧
    j0.RefreshToken 100 (.malformed "garbage") =
      .error ("failed to parse token for refresh: " ++
        "failed to parse token: token is malformed") := by
  have h := refreshToken_amended j0 100 (j0.GenerateToken 50 7 "alice" "admin")
    { userID := 7, username := "alice", role := "admin", iat := 50, exp := 3650 }
    (by decide) (by decide) (by decide)
  exact ⟨h.1.1, h.1.2.2, h.2 (.malformed "garbage") _ (by decide)⟩

/-- Claim C6: the required-authentication middleware rejects with 401 — and
never runs the wrapped handler or builds an identity context — whenever token
extraction fails (in particular whenever the `Authorization` header is absent
or empty, in which case the Token Codec is never invoked) or whenever the
extracted token fails `ParseToken`; on success the wrapped handler runs
exactly once with a child context from which the decoded subject id, display
name and role are all readable. -/
theorem authenticate_middleware_spec
    (parseToken : List Char → Except String CustomClaims)
    (authHeader : List Char) (reqCtx : Ctx) :
    (∀ e, extractToken authHeader = .error e →
      (authenticate parseToken authHeader reqCtx).response =
          .rejected 401 "missing or invalid authorization token" ∧
        (authenticate parseToken authHeader reqCtx).parseTokenCalled = false ∧
        (authenticate parseToken authHeader reqCtx).handlerCalls = 0) ∧
    (authHeader = [] → extractToken authHeader = .error "missing authorization token") ∧
    (∀ token e, extractToken authHeader = .ok token → parseToken token = .error e →
      (authenticate parseToken authHeader reqCtx).response =
          .rejected 401 "invalid or expired token" ∧
        (authenticate parseToken authHeader reqCtx).handlerCalls = 0) ∧
    (∀ token claims, extractToken authHeader = .ok token →
      parseToken token = .ok claims →
      (authenticate parseToken authHeader reqCtx).response =
          .nextCalled (contextWithUser reqCtx claims) ∧
        (authenticate parseToken authHeader reqCtx).handlerCalls = 1 ∧
        (contextWithUser reqCtx claims).value contextKeyUserID =
          some (.int64 claims.userID) ∧
        (contextWithUser reqCtx claims).value contextKeyUsername =
          some (.str claims.username) ∧
        (contextWithUser reqCtx claims).value contextKeyRole =
          some (.str claims.role)) := by
  refine ⟨?_, ?_, ?_, ?_⟩
  · intro e he
    simp [authenticate, he, MwOutcome.handlerCalls]
  · intro he
    simp [extractToken, he]
  · intro token e hex hp
    simp [authenticate, hex, hp, MwOutcome.handlerCalls]
  · intro token claims hex hp
    refine ⟨by simp [authenticate, hex, hp], by simp [authenticate, hex, hp, MwOutcome.handlerCalls], ?_, ?_, ?_⟩
    all_goals simp [contextWithUser, Ctx.value, contextKeyUserID,
      contextKeyUsername, contextKeyRole, List.find?]

/-- Witness for `authenticate_middleware_spec`: a missing header is rejected
without consulting the codec, and a bearer token accepted by the codec reaches
the handler exactly once with the identity in context. -/
theorem authenticate_middleware_spec_witness :
    (authenticate parseAccept [] ctx0).parseTokenCalled = false ∧
    (authenticate parseAccept [] ctx0).handlerCalls = 0 ∧
    (authenticate parseReject "Bearer tok".toList ctx0).response =
      .rejected 401 "invalid or expired token" ∧
    (authenticate parseAccept "Bearer tok".toList ctx0).handlerCalls = 1 ∧
    (contextWithUser ctx0 claims0).value contextKeyUserID =
      some (.int64 claims0.userID) := by
  have h1 := authenticate_middleware_spec parseAccept [] ctx0
  have h2 := authenticate_middleware_spec parseReject "Bearer tok".toList ctx0
  have h3 := authenticate_middleware_spec parseAccept "Bearer tok".toList ctx0
  refine ⟨(h1.1 "missing authorization token" (by decide)).2.1,
    (h1.1 "missing authorization token" (by decide)).2.2,
    (h2.2.2.1 "tok".toList "failed to parse token: token signature is invalid"
      (by decide) rfl).1,
    (h3.2.2.2 "tok".toList claims0 (by decide) rfl).2.1,
    (h3.2.2.2 "tok".toList claims0 (by decide) rfl).2.2.1⟩

/-- Claim C7: the role guard rejects with 403 when the request context carries
no role and when the context role is not exactly equal to one of the allowed
roles; it invokes the wrapped handler (with the original request) exactly when
the role equals some allowed entry — membership being plain string equality
against the list, with no hierarchy or wildcard. -/
theorem requireRole_spec (allowedRoles : List String) (reqCtx : Ctx) :
    (reqCtx.value contextKeyRole = none →
      requireRole allowedRoles reqCtx = .rejected 403 "authentication required") ∧
    (∀ role, reqCtx.value contextKeyRole = some (.str role) →
      hasRoleIn role allowedRoles = false →
      requireRole allowedRoles reqCtx = .rejected 403 "insufficient permissions") ∧
    (∀ role, reqCtx.value contextKeyRole = some (.str role) →
      hasRoleIn role allowedRoles = true →
      requireRole allowedRoles reqCtx = .nextCalled reqCtx) ∧
    (∀ role, hasRoleIn role allowedRoles = true ↔ role ∈ allowedRoles) := by
  refine ⟨?_, ?_, ?_, ?_⟩
  · intro h
    simp [requireRole, h]
  · intro role h hr
    simp [requireRole, h, hr]
  · intro role h hr
    simp [requireRole, h, hr]
  · intro role
    simp [hasRoleIn, List.any_eq_true, beq_iff_eq]

/-- Witness for `requireRole_spec` on concrete contexts: an authenticated
admin passes `RequireRole("admin")`, a plain user is rejected, and a context
without identity is rejected. -/
theorem requireRole_spec_witness :
    requireRole ["admin"] ctx0 = .rejected 403 "authentication required" ∧
    requireRole ["admin"] (contextWithUser ctx0 claims0) =
      .nextCalled (contextWithUser ctx0 claims0) ∧
    requireRole ["admin"]
        (contextWithUser ctx0 { claims0 with role := "user" }) =
      .rejected 403 "insufficient permissions" := by
  have h1 := requireRole_spec ["admin"] ctx0
  have h2 := requireRole_spec ["admin"] (contextWithUser ctx0 claims0)
  have h3 := requireRole_spec ["admin"]
    (contextWithUser ctx0 { claims0 with role := "user" })
  exact ⟨h1.1 (by decide),
    h2.2.2.1 "admin" (by decide) (by decide),
    h3.2.1 "user" (by decide) (by decide)⟩

/-- Claim C8: a login against an email with no user record and a login
against an existing active user with a non-verifying password both return the
very same error value `ErrInvalidCredentials`, so the two failures are
indistinguishable to the caller. -/
theorem authenticateUser_error_indistinguishable
    (repo1 repo2 : String → Except String (Option UserRec))
    (verify : GoStr → GoStr → Bool) (email1 email2 : String)
    (pwd1 pwd2 : GoStr) (u : UserRec)
    (h1 : repo1 email1 = .ok none)
    (h2 : repo2 email2 = .ok (some u))
    (hstat : u.status = userStatusActive)
    (hv : verify u.passwordHash pwd2 = false) :
    Service.AuthenticateUser repo1 verify email1 pwd1 =
      .error errInvalidCredentials ∧
    Service.AuthenticateUser repo2 verify email2 pwd2 =
      .error errInvalidCredentials ∧
    Service.AuthenticateUser repo1 verify email1 pwd1 =
      Service.AuthenticateUser repo2 verify email2 pwd2 := by
  have e1 : Service.AuthenticateUser repo1 verify email1 pwd1 =
      .error errInvalidCredentials := by
    simp [Service.AuthenticateUser, h1]
  have e2 : Service.AuthenticateUser repo2 verify email2 pwd2 =
      .error errInvalidCredentials := by
    simp [Service.AuthenticateUser, h2, hstat, hv,
      userStatusActive, userStatusInactive, userStatusBanned]
  exact ⟨e1, e2, e1.trans e2.symm⟩

/-- Witness for `authenticateUser_error_indistinguishable`: unknown email
versus wrong password for `demoUser` under the wired hasher. -/
theorem authenticateUser_error_indistinguishable_witness :
    Service.AuthenticateUser emptyRepo wiredVerify "nobody@example.com"
        demoPassword = .error errInvalidCredentials ∧
    Service.AuthenticateUser demoRepo wiredVerify "alice@example.com"
        (.txt "WrongPass1!".toList) = .error errInvalidCredentials ∧
    Service.AuthenticateUser emptyRepo wiredVerify "nobody@example.com"
        demoPassword =
      Service.AuthenticateUser demoRepo wiredVerify "alice@example.com"
        (.txt "WrongPass1!".toList) :=
  authenticateUser_error_indistinguishable emptyRepo demoRepo wiredVerify
    "nobody@example.com" "alice@example.com" demoPassword
    (.txt "WrongPass1!".toList) demoUser
    (by decide) (by decide) (by decide) (by decide)

/-- Claim C10 (implicit): when the user-store lookup itself fails with an
infrastructure error, `AuthenticateUser` returns the same
`ErrInvalidCredentials` — an `AuthenticationError` (401-class) value, not an
`InternalError` (500-class) one — that it returns for a nonexistent account or
a wrong password. -/
theorem authenticateUser_lookup_failure_collapsed
    (repo : String → Except String (Option UserRec))
    (verify : GoStr → GoStr → Bool) (email : String) (pwd : GoStr)
    (e : String) (h : repo email = .error e) :
    Service.AuthenticateUser repo verify email pwd =
      .error errInvalidCredentials ∧
    errInvalidCredentials.type = authenticationError ∧
    errInvalidCredentials.type ≠ internalError := by
  exact ⟨by simp [Service.AuthenticateUser, h], rfl, by decide⟩

/-- Witness for `authenticateUser_lookup_failure_collapsed` on the failing
store. -/
theorem authenticateUser_lookup_failure_collapsed_witness :
    Service.AuthenticateUser failingRepo wiredVerify "alice@example.com"
        demoPassword = .error errInvalidCredentials ∧
    errInvalidCredentials.type = authenticationError ∧
    errInvalidCredentials.type ≠ internalError :=
  authenticateUser_lookup_failure_collapsed failingRepo wiredVerify
    "alice@example.com" demoPassword "driver: bad connection" (by decide)

end TodoAuth
